import Mathlib

/-!
Shallow embedding of the wakatime-ls heartbeat engine
(src/wakatime-ls/src/main.rs) and verification of its specification.

Modelling conventions:
* Instants (`DateTime<Local>`) are modelled as natural numbers counting
  milliseconds since the epoch; `chrono::TimeDelta` values are integers in
  milliseconds (`TimeDelta::seconds n` = `n * 1000`,
  `TimeDelta::minutes 2` = `120000`).  `DateTime::timestamp()` truncates to
  whole seconds, i.e. division by 1000.
* File paths are the strings produced by `extract_uri_string`; both
  notification handlers key the cache with the same normalisation, so the
  handlers below take the already-normalised path as input.
* The `HashMap<String, FileCacheEntry>` is modelled as an association list
  with overwrite-on-insert semantics.
* The subprocess invocation is modelled by the argument list it would
  receive; the outcome of `command.output().await` is an explicit boolean
  input (`dispatch_ok`), and the diagnostic log written on failure is an
  explicit output (`errLog`).
* `settings.load()` / `platform.load()` snapshots are the corresponding
  fields of the sequential server state.
-/

namespace WakatimeLS

/-- Settings struct (main.rs lines 11-18). `heartbeat_interval` is `Option<i64>`
seconds. -/
structure Settings where
  api_key : Option String
  api_url : Option String
  metrics : Option Bool
  debug : Option Bool
  heartbeat_interval : Option Int
deriving Repr, DecidableEq

/-- Settings::default(): every field `None` (derive(Default), lines 11-18). -/
def Settings.default : Settings :=
  ⟨none, none, none, none, none⟩

/-- FileCacheEntry (main.rs lines 20-24). -/
structure FileCacheEntry where
  lineno : Nat
  cursor_pos : Nat
deriving Repr, DecidableEq

/-- CurrentFile (main.rs lines 43-47): active file path and last-sent instant
(milliseconds). -/
structure CurrentFile where
  uri : String
  timestamp : Nat
deriving Repr, DecidableEq

/-- Event (main.rs lines 33-41). -/
structure Event where
  uri : String
  is_write : Bool
  language : Option String
  lineno : Option Nat
  cursor_pos : Option Nat
  file_changed : Bool
deriving Repr, DecidableEq

/-- The mutable state of WakatimeLanguageServer (main.rs lines 49-56):
settings snapshot, current-file tracker and file cache.  `client` and
`wakatime_path` are external collaborators and carry no engine state. -/
structure ServerState where
  settings : Settings
  current_file : CurrentFile
  file_cache : List (String × FileCacheEntry)
deriving Repr, DecidableEq

/-- HashMap::get on the cache (main.rs line 386). -/
def cacheLookup (entries : List (String × FileCacheEntry)) (k : String) :
    Option FileCacheEntry :=
  match entries with
  | [] => none
  | (k', v) :: rest => if k' = k then some v else cacheLookup rest k

/-- HashMap::insert on the cache (main.rs line 347): overwrites the entry for
the key. -/
def cacheInsert (entries : List (String × FileCacheEntry)) (k : String)
    (v : FileCacheEntry) : List (String × FileCacheEntry) :=
  (k, v) :: entries.filter (fun p => p.1 != k)

/-- Interval computation (main.rs lines 96-100): `TimeDelta::seconds(h)` if
`heartbeat_interval` is set, else `TimeDelta::minutes(2)`; in milliseconds. -/
def intervalOf (settings : Settings) : Int :=
  match settings.heartbeat_interval with
  | some h => h * 1000
  | none => 2 * 60 * 1000

/-- Value passed to `--time` (main.rs line 158): `now.timestamp() as f64`,
i.e. the instant truncated to whole seconds.  The `f64` cast is exact and
Rust formats an integral float without a decimal point, so the rendered
argument is `toString (timeArg now_ms)`. -/
def timeArg (now_ms : Nat) : Nat :=
  now_ms / 1000

/-- Mandatory arguments `--time`/`--entity` (main.rs lines 156-160). -/
def baseArgs (event : Event) (now_ms : Nat) : List String :=
  ["--time", toString (timeArg now_ms), "--entity", event.uri]

/-- Plugin argument (main.rs lines 162-164): present unless the platform
string is empty. -/
def pluginArgs (platform : String) : List String :=
  if platform.isEmpty then [] else ["--plugin", platform]

/-- Write flag (main.rs lines 166-168). -/
def writeArgs (event : Event) : List String :=
  if event.is_write then ["--write"] else []

/-- Metrics flag (main.rs lines 172-174). -/
def metricsArgs (settings : Settings) : List String :=
  if settings.metrics = some true then ["--metrics"] else []

/-- API key argument (main.rs lines 176-178). -/
def keyArgs (settings : Settings) : List String :=
  match settings.api_key with
  | some k => ["--key", k]
  | none => []

/-- API url argument (main.rs lines 180-182). -/
def apiUrlArgs (settings : Settings) : List String :=
  match settings.api_url with
  | some u => ["--api-url", u]
  | none => []

/-- Language argument (main.rs lines 184-188). -/
def languageArgs (event : Event) : List String :=
  match event.language with
  | some l => ["--language", l]
  | none => ["--guess-language"]

/-- Verbose flag (main.rs lines 190-194). -/
def verboseArgs (settings : Settings) : List String :=
  if settings.debug = some true then ["--verbose"] else []

/-- Line number argument (main.rs lines 196-198). -/
def linenoArgs (event : Event) : List String :=
  match event.lineno with
  | some l => ["--lineno", toString l]
  | none => []

/-- Cursor position argument (main.rs lines 200-202). -/
def cursorposArgs (event : Event) : List String :=
  match event.cursor_pos with
  | some c => ["--cursorpos", toString c]
  | none => []

/-- Lines-in-file argument (main.rs lines 204-206): only when the best-effort
line count is positive. -/
def linesInFileArgs (line_count : Nat) : List String :=
  if line_count > 0 then ["--lines-in-file", toString line_count] else []

/-- Full wakatime-cli argument list built by push_heartbeat
(main.rs lines 154-206), in source order. -/
def heartbeatArgs (platform : String) (settings : Settings) (event : Event)
    (now_ms : Nat) (line_count : Nat) : List String :=
  baseArgs event now_ms
    ++ pluginArgs platform
    ++ writeArgs event
    ++ metricsArgs settings
    ++ keyArgs settings
    ++ apiUrlArgs settings
    ++ languageArgs event
    ++ verboseArgs settings
    ++ linenoArgs event
    ++ cursorposArgs event
    ++ linesInFileArgs line_count

/-- Result of one notification handler invocation: the argument list of the
dispatched subprocess (none when the event was suppressed), the diagnostic
log message written when the subprocess invocation failed, and the server
state after the handler returns. -/
structure SendResult where
  heartbeat : Option (List String)
  errLog : Option String
  state : ServerState
deriving Repr, DecidableEq

/-- WakatimeLanguageServer::push_heartbeat (main.rs lines 146-231).
`now_ms` is the `Local::now()` read at line 147 (also used for `--time`);
`line_count` is the result of the best-effort `fs::read_to_string` line
count (0 when unreadable, line 150-152); `dispatch_ok` is whether
`command.output().await` succeeded (line 215).  On failure a diagnostic
message is logged (lines 216-224) and nothing is propagated; the tracker
timestamp is then updated exactly when `update_timestamp` holds
(lines 227-230), regardless of the dispatch outcome. -/
def push_heartbeat (st : ServerState) (platform : String) (event : Event)
    (update_timestamp : Bool) (now_ms : Nat) (line_count : Nat)
    (dispatch_ok : Bool) : SendResult :=
  let args := heartbeatArgs platform st.settings event now_ms line_count
  let errLog : Option String :=
    if dispatch_ok then none
    else some "Wakatime language server send msg failed"
  let st' :=
    if update_timestamp then
      { st with current_file := { st.current_file with timestamp := now_ms } }
    else st
  ⟨some args, errLog, st'⟩

/-- WakatimeLanguageServer::send (main.rs lines 70-144).  Events without a
line number or cursor position are ignored (lines 71-80).  Otherwise the
decision (line 116) is `is_write || file_changed || now - last > interval`,
and on send the timestamp-update flag is `!is_write && !file_changed`
(line 129).  `now_ms` models the `Local::now()` reads in `send` and
`push_heartbeat`, taken as the same instant. -/
def send (st : ServerState) (platform : String) (event : Event)
    (now_ms : Nat) (line_count : Nat) (dispatch_ok : Bool) : SendResult :=
  if event.lineno.isNone || event.cursor_pos.isNone then
    ⟨none, none, st⟩
  else
    let interval := intervalOf st.settings
    let last_timestamp := st.current_file.timestamp
    let should_send := event.is_write || event.file_changed
      || decide ((now_ms : Int) - (last_timestamp : Int) > interval)
    if should_send then
      let should_update_timestamp := !event.is_write && !event.file_changed
      push_heartbeat st platform event should_update_timestamp now_ms
        line_count dispatch_ok
    else
      ⟨none, none, st⟩

/-- LanguageServer::did_change (main.rs lines 319-362).  `range_start` models
`params.content_changes.first().and_then(|c| c.range).map(|r| r.start)` as an
optional (line, character) pair.  The handler computes `file_changed` against
the tracker, builds the event, records `unwrap_or(0)` positions in the cache
(lines 345-354), updates the tracker's active file (lines 356-359), then
calls send. -/
def did_change (st : ServerState) (platform : String) (file_uri : String)
    (range_start : Option (Nat × Nat)) (now_ms : Nat) (line_count : Nat)
    (dispatch_ok : Bool) : SendResult :=
  let file_changed : Bool := decide (file_uri ≠ st.current_file.uri)
  let event : Event :=
    { uri := file_uri
      is_write := false
      language := none
      lineno := range_start.map Prod.fst
      cursor_pos := range_start.map Prod.snd
      file_changed := file_changed }
  let st₁ :=
    { st with
      file_cache := cacheInsert st.file_cache file_uri
        ⟨event.lineno.getD 0, event.cursor_pos.getD 0⟩ }
  let st₂ :=
    { st₁ with current_file := { st₁.current_file with uri := file_uri } }
  send st₂ platform event now_ms line_count dispatch_ok

/-- LanguageServer::did_save (main.rs lines 364-418).  The cached position for
the saved file is looked up (lines 385-390); when either component is absent
the event is dropped before any state change (lines 392-401); otherwise an
`is_write` event carrying the cached position is built, the tracker's active
file is updated and send is called. -/
def did_save (st : ServerState) (platform : String) (file_uri : String)
    (now_ms : Nat) (line_count : Nat) (dispatch_ok : Bool) : SendResult :=
  let lc : Option Nat × Option Nat :=
    match cacheLookup st.file_cache file_uri with
    | some entry => (some entry.lineno, some entry.cursor_pos)
    | none => (none, none)
  if lc.1.isNone || lc.2.isNone then
    ⟨none, none, st⟩
  else
    let event : Event :=
      { uri := file_uri
        is_write := true
        language := none
        lineno := lc.1
        cursor_pos := lc.2
        file_changed := false }
    let st₁ :=
      { st with current_file := { st.current_file with uri := file_uri } }
    send st₁ platform event now_ms line_count dispatch_ok

/-- Minimal model of the `serde_json::Value`s appearing in the initialization
options bundle. -/
inductive JsonV where
  | str (s : String)
  | bool (b : Bool)
  | int (n : Int)
  | null
deriving Repr, DecidableEq

/-- Value::as_str. -/
def JsonV.asStr : JsonV → Option String
  | .str s => some s
  | _ => none

/-- Value::as_bool. -/
def JsonV.asBool : JsonV → Option Bool
  | .bool b => some b
  | _ => none

/-- Value::as_i64. -/
def JsonV.asInt : JsonV → Option Int
  | .int n => some n
  | _ => none

/-- Value::get on the options object (key lookup; JSON object keys are
unique). -/
def optsGet (opts : List (String × JsonV)) (k : String) : Option JsonV :=
  match opts with
  | [] => none
  | (k', v) :: rest => if k' = k then some v else optsGet rest k

/-- Settings construction in initialize (main.rs lines 252-287): starting from
`Settings::default()`, the keys `api-url`, `api-key`, `metrics` and `debug`
are read from the options bundle; no other key is consulted. -/
def parseSettings (opts : List (String × JsonV)) : Settings :=
  let s := Settings.default
  let s :=
    match (optsGet opts "api-url").bind JsonV.asStr with
    | some api_url => { s with api_url := some api_url }
    | none => s
  let s :=
    match (optsGet opts "api-key").bind JsonV.asStr with
    | some api_key => { s with api_key := some api_key }
    | none => s
  let s :=
    match (optsGet opts "metrics").bind JsonV.asBool with
    | some metrics => { s with metrics := some metrics }
    | none => s
  let s :=
    match (optsGet opts "debug").bind JsonV.asBool with
    | some debug => { s with debug := some debug }
    | none => s
  s

/-- One editor notification, as dispatched to the two handlers. -/
inductive Notification where
  | change (file_uri : String) (range_start : Option (Nat × Nat))
  | save (file_uri : String)
deriving Repr, DecidableEq

/-- A notification together with its environment: the clock reading while it
is processed, the best-effort line count of the file, and the subprocess
outcome. -/
structure TimedNote where
  note : Notification
  now_ms : Nat
  line_count : Nat
  dispatch_ok : Bool
deriving Repr, DecidableEq

/-- State transition of a single notification (sequential processing). -/
def stepNote (platform : String) (st : ServerState) (tn : TimedNote) :
    ServerState :=
  match tn.note with
  | .change uri r =>
      (did_change st platform uri r tn.now_ms tn.line_count tn.dispatch_ok).state
  | .save uri =>
      (did_save st platform uri tn.now_ms tn.line_count tn.dispatch_ok).state

/-- States visited while processing a sequence of notifications, initial
state first. -/
def trajectory (platform : String) (st : ServerState) :
    List TimedNote → List ServerState
  | [] => [st]
  | tn :: rest => st :: trajectory platform (stepNote platform st tn) rest

/-! Helper lemmas shared by the claim theorems. -/

/-- Unfolding of send as a nest of conditionals. -/
theorem send_eq (st : ServerState) (platform : String) (event : Event)
    (now_ms line_count : Nat) (ok : Bool) :
    send st platform event now_ms line_count ok =
      if event.lineno.isNone || event.cursor_pos.isNone then ⟨none, none, st⟩
      else if event.is_write || event.file_changed
          || decide ((now_ms : Int) - (st.current_file.timestamp : Int) >
              intervalOf st.settings) then
        push_heartbeat st platform event (!event.is_write && !event.file_changed)
          now_ms line_count ok
      else ⟨none, none, st⟩ := rfl

/-- A heartbeat is produced exactly when the position is present and the
decision predicate holds. -/
theorem send_isSome_iff (st : ServerState) (platform : String) (event : Event)
    (now_ms line_count : Nat) (ok : Bool)
    (hl : event.lineno.isSome) (hc : event.cursor_pos.isSome) :
    (send st platform event now_ms line_count ok).heartbeat.isSome ↔
      (event.is_write = true ∨ event.file_changed = true ∨
        (now_ms : Int) - (st.current_file.timestamp : Int) >
          intervalOf st.settings) := by
  obtain ⟨l, hl'⟩ := Option.isSome_iff_exists.mp hl
  obtain ⟨c, hc'⟩ := Option.isSome_iff_exists.mp hc
  cases hw : event.is_write <;> cases hf : event.file_changed <;>
    by_cases hd : ((now_ms : Int) - (st.current_file.timestamp : Int) >
        intervalOf st.settings) <;>
    simp [send_eq, hl', hc', hw, hf, hd, push_heartbeat]

/-- Sample settings with only the heartbeat interval possibly set. -/
def sampleSettings (hi : Option Int) : Settings :=
  ⟨none, none, none, none, hi⟩

/-- Sample server state: given interval setting, tracker at a given
last-sent instant on file /tmp/a.txt, empty cache. -/
def sampleState (hi : Option Int) (ts : Nat) : ServerState :=
  ⟨sampleSettings hi, ⟨"/tmp/a.txt", ts⟩, []⟩

/-- Sample plain edit event on the tracked file, with position present. -/
def sampleEvent : Event :=
  ⟨"/tmp/a.txt", false, none, some 1, some 2, false⟩

/-- C1: for an event with both line and column present, a heartbeat is sent
iff `is_write` or `file_changed` holds or the elapsed time since the
tracker's last-sent instant strictly exceeds the configured interval. -/
theorem C1_decision (st : ServerState) (platform : String) (event : Event)
    (now_ms line_count : Nat) (ok : Bool)
    (hl : event.lineno.isSome) (hc : event.cursor_pos.isSome) :
    (send st platform event now_ms line_count ok).heartbeat.isSome ↔
      (event.is_write = true ∨ event.file_changed = true ∨
        (now_ms : Int) - (st.current_file.timestamp : Int) >
          intervalOf st.settings) :=
  send_isSome_iff st platform event now_ms line_count ok hl hc

/-- C1 witness: with interval 60 s and last_sent = 0, the plain edit event at
30 s satisfies the decision iff, and so does the one at 61 s. -/
theorem C1_decision_witness :
    ((send (sampleState (some 60) 0) "" sampleEvent 30000 10 true).heartbeat.isSome ↔
      (sampleEvent.is_write = true ∨ sampleEvent.file_changed = true ∨
        (30000 : Int) - ((sampleState (some 60) 0).current_file.timestamp : Int) >
          intervalOf (sampleState (some 60) 0).settings)) ∧
    ((send (sampleState (some 60) 0) "" sampleEvent 61000 10 true).heartbeat.isSome ↔
      (sampleEvent.is_write = true ∨ sampleEvent.file_changed = true ∨
        (61000 : Int) - ((sampleState (some 60) 0).current_file.timestamp : Int) >
          intervalOf (sampleState (some 60) 0).settings)) :=
  ⟨C1_decision _ _ _ _ _ _ (by decide) (by decide),
   C1_decision _ _ _ _ _ _ (by decide) (by decide)⟩

/-- C2: when a heartbeat is sent, the tracker's last-sent timestamp becomes
the current instant iff the event has `is_write = false` and
`file_changed = false`; otherwise it is left unchanged. -/
theorem C2_update_timestamp (st : ServerState) (platform : String)
    (event : Event) (now_ms line_count : Nat) (ok : Bool)
    (hsent : (send st platform event now_ms line_count ok).heartbeat.isSome) :
    (send st platform event now_ms line_count ok).state.current_file.timestamp =
      if event.is_write = false ∧ event.file_changed = false then now_ms
      else st.current_file.timestamp := by
  cases hml : event.lineno with
  | none => rw [send_eq] at hsent; simp [hml] at hsent
  | some l =>
    cases hmc : event.cursor_pos with
    | none => rw [send_eq] at hsent; simp [hml, hmc] at hsent
    | some c =>
      cases hw : event.is_write <;> cases hf : event.file_changed <;>
        by_cases hd : ((now_ms : Int) - (st.current_file.timestamp : Int) >
            intervalOf st.settings) <;>
        simp [send_eq, hml, hmc, hw, hf, hd, push_heartbeat] at hsent ⊢

/-- C2 witness: same-file edit at 61 s with interval 60 s is sent and
advances the timestamp to 61000 ms. -/
theorem C2_update_timestamp_witness :
    (send (sampleState (some 60) 0) "" sampleEvent 61000 10 true).state.current_file.timestamp =
      if sampleEvent.is_write = false ∧ sampleEvent.file_changed = false then 61000
      else (sampleState (some 60) 0).current_file.timestamp :=
  C2_update_timestamp _ _ _ _ _ _ (by decide)

/-- C3: an event lacking its line number or cursor position is suppressed
outright: no heartbeat, no error log, and the state is returned unchanged,
whatever the other fields hold. -/
theorem C3_missing_position (st : ServerState) (platform : String)
    (event : Event) (now_ms line_count : Nat) (ok : Bool)
    (h : event.lineno = none ∨ event.cursor_pos = none) :
    send st platform event now_ms line_count ok = ⟨none, none, st⟩ := by
  rcases h with h | h <;> rw [send_eq] <;> simp [h]

/-- C3 witness: a save event with file_changed set but no position is
dropped with the state untouched. -/
theorem C3_missing_position_witness :
    send (sampleState (some 60) 0) ""
        ⟨"/tmp/a.txt", true, none, none, some 2, true⟩ 500000 10 true =
      ⟨none, none, sampleState (some 60) 0⟩ :=
  C3_missing_position _ _ _ _ _ _ (Or.inl rfl)

/-- C6: for a plain edit event (no write, no switch) with position present,
the decision threshold is 120 s (120000 ms) when the interval setting is
unset and N s when it is set to N. -/
theorem C6_interval_default (st : ServerState) (platform : String)
    (event : Event) (now_ms line_count : Nat) (ok : Bool)
    (hl : event.lineno.isSome) (hc : event.cursor_pos.isSome)
    (hw : event.is_write = false) (hf : event.file_changed = false) :
    (st.settings.heartbeat_interval = none →
      ((send st platform event now_ms line_count ok).heartbeat.isSome ↔
        (now_ms : Int) - (st.current_file.timestamp : Int) > 120 * 1000)) ∧
    (∀ N : Int, st.settings.heartbeat_interval = some N →
      ((send st platform event now_ms line_count ok).heartbeat.isSome ↔
        (now_ms : Int) - (st.current_file.timestamp : Int) > N * 1000)) := by
  constructor
  · intro hnone
    rw [send_isSome_iff st platform event now_ms line_count ok hl hc]
    simp [hw, hf, intervalOf, hnone]
  · intro N hsome
    rw [send_isSome_iff st platform event now_ms line_count ok hl hc]
    simp [hw, hf, intervalOf, hsome]

/-- C6 witness: with the interval unset, the 120 s default governs the edit
at 121 s; with the interval set to 60, the 60 s threshold governs the edit
at 61 s. -/
theorem C6_interval_default_witness :
    ((send (sampleState none 0) "" sampleEvent 121000 10 true).heartbeat.isSome ↔
      (121000 : Int) - ((sampleState none 0).current_file.timestamp : Int) >
        120 * 1000) ∧
    ((send (sampleState (some 60) 0) "" sampleEvent 61000 10 true).heartbeat.isSome ↔
      (61000 : Int) - ((sampleState (some 60) 0).current_file.timestamp : Int) >
        60 * 1000) :=
  ⟨(C6_interval_default _ _ _ _ _ _ (by decide) (by decide) rfl rfl).1 rfl,
   (C6_interval_default _ _ _ _ _ _ (by decide) (by decide) rfl rfl).2 60 rfl⟩

/-- Looking up the key just inserted returns the inserted entry. -/
theorem cacheLookup_insert (entries : List (String × FileCacheEntry))
    (k : String) (v : FileCacheEntry) :
    cacheLookup (cacheInsert entries k v) k = some v := by
  simp [cacheInsert, cacheLookup]

/-- A save whose file has a cache entry dispatches a heartbeat built from the
cached position and leaves the tracker timestamp untouched (only the active
file is updated). -/
theorem did_save_of_lookup (st : ServerState) (platform file_uri : String)
    (now_ms line_count : Nat) (ok : Bool) (entry : FileCacheEntry)
    (h : cacheLookup st.file_cache file_uri = some entry) :
    (did_save st platform file_uri now_ms line_count ok).heartbeat =
      some (heartbeatArgs platform st.settings
        ⟨file_uri, true, none, some entry.lineno, some entry.cursor_pos, false⟩
        now_ms line_count) ∧
    (did_save st platform file_uri now_ms line_count ok).state =
      { st with current_file := { st.current_file with uri := file_uri } } := by
  simp [did_save, h, send_eq, push_heartbeat]

/-- A save whose file has no cache entry is dropped with no state change. -/
theorem did_save_of_lookup_none (st : ServerState) (platform file_uri : String)
    (now_ms line_count : Nat) (ok : Bool)
    (h : cacheLookup st.file_cache file_uri = none) :
    did_save st platform file_uri now_ms line_count ok = ⟨none, none, st⟩ := by
  simp [did_save, h]

/-- C4: on save, the heartbeat position comes from the cache entry of the
saved file's path: with an entry present the dispatched arguments carry the
cached lineno/cursorpos and the gating timestamp is not advanced; with no
entry the save is suppressed with the state unchanged. -/
theorem C4_save_uses_cache (st : ServerState) (platform file_uri : String)
    (now_ms line_count : Nat) (ok : Bool) :
    (∀ entry : FileCacheEntry,
      cacheLookup st.file_cache file_uri = some entry →
        (∃ pre post,
          (did_save st platform file_uri now_ms line_count ok).heartbeat =
            some (pre ++ ["--lineno", toString entry.lineno,
              "--cursorpos", toString entry.cursor_pos] ++ post)) ∧
        (did_save st platform file_uri now_ms line_count ok).state.current_file.timestamp =
          st.current_file.timestamp) ∧
    (cacheLookup st.file_cache file_uri = none →
      did_save st platform file_uri now_ms line_count ok = ⟨none, none, st⟩) := by
  constructor
  · intro entry h
    obtain ⟨h1, h2⟩ :=
      did_save_of_lookup st platform file_uri now_ms line_count ok entry h
    constructor
    · refine ⟨baseArgs ⟨file_uri, true, none, some entry.lineno,
          some entry.cursor_pos, false⟩ now_ms
        ++ pluginArgs platform
        ++ writeArgs ⟨file_uri, true, none, some entry.lineno,
            some entry.cursor_pos, false⟩
        ++ metricsArgs st.settings
        ++ keyArgs st.settings
        ++ apiUrlArgs st.settings
        ++ languageArgs ⟨file_uri, true, none, some entry.lineno,
            some entry.cursor_pos, false⟩
        ++ verboseArgs st.settings,
        linesInFileArgs line_count, ?_⟩
      rw [h1]
      simp [heartbeatArgs, linenoArgs, cursorposArgs, List.append_assoc]
    · rw [h2]
  · exact did_save_of_lookup_none st platform file_uri now_ms line_count ok

/-- Sample server state whose cache holds an entry (3, 7) for /tmp/a.txt. -/
def cachedState : ServerState :=
  ⟨sampleSettings (some 60), ⟨"", 0⟩, [("/tmp/a.txt", ⟨3, 7⟩)]⟩

/-- C4 witness: saving /tmp/a.txt with cache entry (3, 7) emits a heartbeat
carrying lineno 3 and cursorpos 7 without touching the timestamp; saving it
with an empty cache is suppressed. -/
theorem C4_save_uses_cache_witness :
    ((∃ pre post,
        (did_save cachedState "" "/tmp/a.txt" 5000 10 true).heartbeat =
          some (pre ++ ["--lineno", toString (FileCacheEntry.mk 3 7).lineno,
            "--cursorpos", toString (FileCacheEntry.mk 3 7).cursor_pos] ++ post)) ∧
      (did_save cachedState "" "/tmp/a.txt" 5000 10 true).state.current_file.timestamp =
        cachedState.current_file.timestamp) ∧
    did_save (sampleState (some 60) 0) "" "/tmp/a.txt" 5000 10 true =
      ⟨none, none, sampleState (some 60) 0⟩ :=
  ⟨(C4_save_uses_cache cachedState "" "/tmp/a.txt" 5000 10 true).1
      ⟨3, 7⟩ (by decide),
   (C4_save_uses_cache (sampleState (some 60) 0) "" "/tmp/a.txt" 5000 10 true).2
      (by decide)⟩

/-- C5: the initialize handler never consults the heartbeat-interval key:
whatever the options bundle contains, the stored settings leave the
heartbeat interval unset and the engine's threshold stays the 120 s
default.  In particular an options bundle supplying heartbeat-interval = 60
still yields an unset interval, contradicting the claim that the value is
stored. -/
theorem C5_interval_key_never_stored :
    (∀ opts : List (String × JsonV),
      (parseSettings opts).heartbeat_interval = none ∧
        intervalOf (parseSettings opts) = 120 * 1000) ∧
    optsGet [("heartbeat-interval", JsonV.int 60)] "heartbeat-interval" =
      some (JsonV.int 60) ∧
    (parseSettings [("heartbeat-interval", JsonV.int 60)]).heartbeat_interval =
      none := by
  refine ⟨?_, by decide, by decide⟩
  intro opts
  simp only [parseSettings, Settings.default]
  rcases (optsGet opts "api-url").bind JsonV.asStr with _ | v₁ <;>
    rcases (optsGet opts "api-key").bind JsonV.asStr with _ | v₂ <;>
    rcases (optsGet opts "metrics").bind JsonV.asBool with _ | v₃ <;>
    rcases (optsGet opts "debug").bind JsonV.asBool with _ | v₄ <;>
    simp [intervalOf]

/-- C7: a failed subprocess invocation is only logged: the handler still
returns, with the same heartbeat arguments and the same resulting state as
on success, and the gating timestamp advance depends only on the
update_timestamp flag, never on the dispatch outcome. -/
theorem C7_dispatch_failure_only_logged (st : ServerState) (platform : String)
    (event : Event) (u : Bool) (now_ms line_count : Nat) :
    (push_heartbeat st platform event u now_ms line_count false).state =
      (push_heartbeat st platform event u now_ms line_count true).state ∧
    (push_heartbeat st platform event u now_ms line_count false).heartbeat =
      (push_heartbeat st platform event u now_ms line_count true).heartbeat ∧
    (push_heartbeat st platform event u now_ms line_count false).errLog.isSome =
      true ∧
    (push_heartbeat st platform event u now_ms line_count true).errLog = none ∧
    (∀ ok : Bool,
      (push_heartbeat st platform event u now_ms line_count ok).state.current_file.timestamp =
        if u then now_ms else st.current_file.timestamp) := by
  refine ⟨rfl, rfl, rfl, rfl, ?_⟩
  intro ok
  cases u <;> simp [push_heartbeat]

/-- The trajectory of a notification list starts at the initial state. -/
theorem trajectory_cons (platform : String) (st : ServerState)
    (l : List TimedNote) :
    ∃ t, trajectory platform st l = st :: t := by
  cases l <;> exact ⟨_, rfl⟩

/-- The timestamp component of send's resulting state is either the old
timestamp or the current instant. -/
theorem send_timestamp_cases (st : ServerState) (platform : String)
    (event : Event) (now_ms line_count : Nat) (ok : Bool) :
    (send st platform event now_ms line_count ok).state.current_file.timestamp =
      st.current_file.timestamp ∨
    (send st platform event now_ms line_count ok).state.current_file.timestamp =
      now_ms := by
  rw [send_eq]
  split
  · exact Or.inl rfl
  · split
    · by_cases hu : (!event.is_write && !event.file_changed) = true
      · right; simp [push_heartbeat, hu]
      · left; simp [push_heartbeat, hu]
    · exact Or.inl rfl

/-- One notification step either keeps the stored timestamp or overwrites it
with the clock reading taken while processing the notification. -/
theorem stepNote_timestamp_cases (platform : String) (st : ServerState)
    (tn : TimedNote) :
    (stepNote platform st tn).current_file.timestamp =
      st.current_file.timestamp ∨
    (stepNote platform st tn).current_file.timestamp = tn.now_ms := by
  rcases tn with ⟨note, n, lc, ok⟩
  cases note with
  | change uri r =>
    show (did_change st platform uri r n lc ok).state.current_file.timestamp =
        _ ∨ (did_change st platform uri r n lc ok).state.current_file.timestamp = _
    unfold did_change
    exact send_timestamp_cases _ _ _ _ _ _
  | save uri =>
    show (did_save st platform uri n lc ok).state.current_file.timestamp =
        _ ∨ (did_save st platform uri n lc ok).state.current_file.timestamp = _
    rcases h : cacheLookup st.file_cache uri with _ | entry
    · rw [did_save_of_lookup_none st platform uri n lc ok h]
      exact Or.inl rfl
    · obtain ⟨-, h2⟩ := did_save_of_lookup st platform uri n lc ok entry h
      rw [h2]
      exact Or.inl rfl

/-- C8: processing any notification sequence whose clock readings are
non-decreasing and start no earlier than the stored last-sent timestamp
yields a non-decreasing sequence of last-sent timestamps: every update
overwrites the timestamp with a value no earlier than the stored one. -/
theorem C8_last_sent_monotone (platform : String) (st : ServerState)
    (l : List TimedNote)
    (hclock : List.Chain' (· ≤ ·)
      (st.current_file.timestamp :: l.map TimedNote.now_ms)) :
    List.Chain' (· ≤ ·)
      ((trajectory platform st l).map fun s => s.current_file.timestamp) := by
  induction l generalizing st with
  | nil => simp [trajectory]
  | cons tn rest ih =>
    have hstep := stepNote_timestamp_cases platform st tn
    rw [List.map_cons, List.chain'_cons] at hclock
    obtain ⟨h1, h2⟩ := hclock
    have hle : st.current_file.timestamp ≤
        (stepNote platform st tn).current_file.timestamp := by
      rcases hstep with h | h <;> omega
    have hub : (stepNote platform st tn).current_file.timestamp ≤ tn.now_ms := by
      rcases hstep with h | h <;> omega
    have hchain : List.Chain' (· ≤ ·)
        ((stepNote platform st tn).current_file.timestamp ::
          rest.map TimedNote.now_ms) := by
      cases rest with
      | nil => simp
      | cons tn₁ rest' =>
        rw [List.map_cons, List.chain'_cons] at h2 ⊢
        exact ⟨le_trans hub h2.1, h2.2⟩
    have hrec := ih (stepNote platform st tn) hchain
    obtain ⟨t, ht⟩ := trajectory_cons platform (stepNote platform st tn) rest
    rw [ht, List.map_cons] at hrec
    rw [trajectory, List.map_cons, ht, List.map_cons, List.chain'_cons]
    exact ⟨hle, hrec⟩

/-- C8 witness: a rangeless-free run of an edit at 61 s then a save at 62 s
starting from last_sent = 0 produces non-decreasing stored timestamps. -/
theorem C8_last_sent_monotone_witness :
    List.Chain' (· ≤ ·)
      ((trajectory "" (sampleState (some 60) 0)
        [⟨Notification.change "/tmp/a.txt" (some (1, 2)), 61000, 10, true⟩,
         ⟨Notification.save "/tmp/a.txt", 62000, 10, true⟩]).map
        fun s => s.current_file.timestamp) :=
  C8_last_sent_monotone _ _ _ (by simp [sampleState])

/-- C9 counterexample: the --time value is the instant truncated to whole
seconds, so at 1500 ms it is 1, not the fractional 1.5 the claim requires;
the rendered base arguments carry "1". -/
theorem C9_time_subsecond_counterexample :
    ((timeArg 1500 : ℚ) ≠ (1500 : ℚ) / 1000) ∧
    baseArgs sampleEvent 1500 = ["--time", "1", "--entity", "/tmp/a.txt"] := by
  constructor
  · norm_num [timeArg]
  · rfl

/-- C9 amended: every dispatched argument list begins with --time followed by
the current time truncated to whole seconds since the epoch, then --entity
and the file path. -/
theorem C9_time_entity_args (platform : String) (settings : Settings)
    (event : Event) (now_ms line_count : Nat) :
    ∃ rest, heartbeatArgs platform settings event now_ms line_count =
      "--time" :: toString (now_ms / 1000) :: "--entity" :: event.uri :: rest :=
  ⟨_, rfl⟩

/-- C10: an edit notification carrying no range still caches position (0, 0)
for its file while the edit event itself is suppressed; a subsequent save of
that file is not suppressed and its heartbeat reports lineno 0 and
cursorpos 0. -/
theorem C10_rangeless_edit_then_save (st : ServerState)
    (platform file_uri : String) (n₁ lc₁ n₂ lc₂ : Nat) (ok₁ ok₂ : Bool) :
    (did_change st platform file_uri none n₁ lc₁ ok₁).heartbeat = none ∧
    cacheLookup
      (did_change st platform file_uri none n₁ lc₁ ok₁).state.file_cache
      file_uri = some ⟨0, 0⟩ ∧
    ∃ pre post,
      (did_save (did_change st platform file_uri none n₁ lc₁ ok₁).state
          platform file_uri n₂ lc₂ ok₂).heartbeat =
        some (pre ++ ["--lineno", "0", "--cursorpos", "0"] ++ post) := by
  have hcache : cacheLookup
      (did_change st platform file_uri none n₁ lc₁ ok₁).state.file_cache
      file_uri = some ⟨0, 0⟩ := by
    simp [did_change, send_eq, cacheLookup_insert]
  refine ⟨?_, hcache, ?_⟩
  · simp [did_change, send_eq]
  · obtain ⟨h1, -⟩ := did_save_of_lookup _ platform file_uri n₂ lc₂ ok₂ ⟨0, 0⟩
      hcache
    refine ⟨baseArgs ⟨file_uri, true, none, some 0, some 0, false⟩ n₂
        ++ pluginArgs platform
        ++ writeArgs ⟨file_uri, true, none, some 0, some 0, false⟩
        ++ metricsArgs
            (did_change st platform file_uri none n₁ lc₁ ok₁).state.settings
        ++ keyArgs
            (did_change st platform file_uri none n₁ lc₁ ok₁).state.settings
        ++ apiUrlArgs
            (did_change st platform file_uri none n₁ lc₁ ok₁).state.settings
        ++ languageArgs ⟨file_uri, true, none, some 0, some 0, false⟩
        ++ verboseArgs
            (did_change st platform file_uri none n₁ lc₁ ok₁).state.settings,
      linesInFileArgs lc₂, ?_⟩
    rw [h1]
    have h0 : toString (0 : Nat) = "0" := rfl
    simp [heartbeatArgs, linenoArgs, cursorposArgs, List.append_assoc, h0]

end WakatimeLS
